import Mathlib

/-!
Verification development for the IoT TwinMaker workspace orchestration layer
(`packages/tools-iottwinmaker/src/lib/workspace.ts`).

The TypeScript functions perform sequences of awaited AWS SDK calls.  We embed
them shallowly: each remote call's outcome is supplied by an environment value,
each embedded function returns its result (an `Except` mirroring thrown
exceptions) together with the list of remote calls it issued, in order.
-/

/-! ## String helpers

`String.prototype.includes` (substring test) and `String.prototype.toLowerCase`
(per-character lowering), as used by the source for error-message inspection and
resource naming. -/

/-- Does the second list occur at the head of the first? -/
def charsStartWith : List Char → List Char → Bool
  | _, [] => true
  | [], _ :: _ => false
  | c :: cs, p :: ps => c == p && charsStartWith cs ps

/-- Does `pat` occur as a contiguous run somewhere in `s`? -/
def charsContain (s pat : List Char) : Bool :=
  match s with
  | [] => pat.isEmpty
  | _ :: rest => charsStartWith s pat || charsContain rest pat

/-- JS `s.includes(pat)`: substring containment. -/
def strIncludes (s pat : String) : Bool :=
  charsContain s.data pat.data

/-- JS `s.toLowerCase()` restricted to the latin alphabet (all characters the
source ever feeds it are ASCII identifiers): lower every character. -/
def strToLower (s : String) : String :=
  ⟨s.data.map Char.toLower⟩

/-! ## Error model

Every error the orchestrator inspects is a JS `Error` carrying a message; the
constructor records the SDK error class used in `instanceof` checks
(`ValidationException`, `ResourceNotFoundException`, `NoSuchBucket`, or a plain
`Error`). -/

inductive WsError where
  /-- `ValidationException` from the TwinMaker SDK. -/
  | validationException (message : String)
  /-- `ResourceNotFoundException` from the TwinMaker SDK. -/
  | resourceNotFoundException (message : String)
  /-- `NoSuchBucket` from the S3 SDK. -/
  | noSuchBucket (message : String)
  /-- a plain `Error` (also used for the orchestrator's own `throw new Error(...)`). -/
  | jsError (message : String)
deriving Repr, DecidableEq

/-- The `.message` property, defined on every `Error` instance. -/
def WsError.message : WsError → String
  | .validationException m => m
  | .resourceNotFoundException m => m
  | .noSuchBucket m => m
  | .jsError m => m

/-- The error class name, as rendered by JS string interpolation of the error. -/
def WsError.className : WsError → String
  | .validationException _ => "ValidationException"
  | .resourceNotFoundException _ => "ResourceNotFoundException"
  | .noSuchBucket _ => "NoSuchBucket"
  | .jsError _ => "Error"

/-- JS template interpolation of an error value: `name: message`. -/
def WsError.render (e : WsError) : String :=
  e.className ++ ": " ++ e.message

/-! ## `retryWorkspaceCreation` (workspace.ts lines 237-270)

The loop issues `createWorkspace` calls while the attempt budget lasts.  The
environment maps the index of each `createWorkspace` call (0-based) to its
outcome: either a response with an optional `arn` field, or a thrown error. -/

/-- Outcome of one `aws().tm.createWorkspace` call. -/
inductive CreateWsResult where
  | ok (arn : Option String)
  | thrown (e : WsError)
deriving Repr, DecidableEq

/-- Observable actions of the retry loop. -/
inductive RetryEvent where
  | createWorkspaceCall
  | sleepMs (ms : Nat)
deriving Repr, DecidableEq

/-- The retry-eligibility test of lines 258-261: a `ValidationException` whose
message includes the role-not-assumable or S3-not-accessible signature. -/
def isRolePropagationError : WsError → Bool
  | .validationException m =>
      strIncludes m "Could not assume the role provided" ||
      strIncludes m "Could not access S3 with the role provided"
  | _ => false

/-- JS falsiness of the optional `arn` string (`!workspaceArn`). -/
def strOptFalsy : Option String → Bool
  | none => true
  | some s => s == ""

/-- One-call-at-a-time unfolding of the `while (attempts > 0)` loop of
`retryWorkspaceCreation`; `idx` counts the `createWorkspace` calls already
issued.  Returns the result (`.ok arn` or the thrown error) with the trace. -/
def retryWorkspaceCreationAux (env : Nat → CreateWsResult) :
    Nat → Nat → Except WsError String × List RetryEvent
  | 0, _ => (.error (.jsError "Retry exhausted"), [])
  | n + 1, idx =>
    match env idx with
    | .ok arn =>
      if strOptFalsy arn then
        -- `throw new Error('Failed to create Workspace')`: caught by the
        -- `catch`, not retry-eligible (plain `Error`), re-thrown.
        (.error (.jsError "Failed to create Workspace"), [.createWorkspaceCall])
      else
        (.ok (arn.getD ""), [.createWorkspaceCall])
    | .thrown e =>
      if isRolePropagationError e then
        let rest := retryWorkspaceCreationAux env n (idx + 1)
        (rest.1, .createWorkspaceCall :: .sleepMs 2000 :: rest.2)
      else
        (.error e, [.createWorkspaceCall])

/-- `retryWorkspaceCreation(workspaceId, roleArn, bucketArn, attempts)`:
run the loop from the first call. -/
def retryWorkspaceCreation (env : Nat → CreateWsResult) (attempts : Nat) :
    Except WsError String × List RetryEvent :=
  retryWorkspaceCreationAux env attempts 0

/-- Number of `createWorkspace` calls in a trace. -/
def countCreateCalls (tr : List RetryEvent) : Nat :=
  (tr.filter (fun e => e == RetryEvent.createWorkspaceCall)).length

theorem countCreateCalls_nil : countCreateCalls [] = 0 := rfl

theorem countCreateCalls_call_cons (tr : List RetryEvent) :
    countCreateCalls (.createWorkspaceCall :: tr) = countCreateCalls tr + 1 := by
  simp [countCreateCalls, List.filter]

theorem countCreateCalls_sleep_cons (ms : Nat) (tr : List RetryEvent) :
    countCreateCalls (.sleepMs ms :: tr) = countCreateCalls tr := by
  have hne : (RetryEvent.sleepMs ms == RetryEvent.createWorkspaceCall) = false := rfl
  simp [countCreateCalls, List.filter, hne]

/-- The loop never issues more `createWorkspace` calls than the attempt budget. -/
theorem retryAux_calls_le (env : Nat → CreateWsResult) :
    ∀ n idx, countCreateCalls (retryWorkspaceCreationAux env n idx).2 ≤ n := by
  intro n
  induction n with
  | zero =>
    intro idx
    simp [retryWorkspaceCreationAux, countCreateCalls]
  | succ n ih =>
    intro idx
    unfold retryWorkspaceCreationAux
    cases henv : env idx with
    | ok arn =>
      by_cases hf : strOptFalsy arn = true
      · simp [hf, countCreateCalls_call_cons, countCreateCalls_nil]
      · simp [eq_false_of_ne_true hf, countCreateCalls_call_cons, countCreateCalls_nil]
    | thrown e =>
      by_cases hr : isRolePropagationError e = true
      · simp only [hr, if_true]
        rw [countCreateCalls_call_cons, countCreateCalls_sleep_cons]
        exact Nat.add_le_add_right (ih (idx + 1)) 1
      · simp [eq_false_of_ne_true hr, countCreateCalls_call_cons, countCreateCalls_nil]

/-- If the first `j` calls starting at `idx` are retry-eligible failures and the
next call returns a non-empty arn, the loop returns that arn. -/
theorem retryAux_success (env : Nat → CreateWsResult) (a : String) (ha : ¬ a = "") :
    ∀ j n idx, j < n →
    (∀ i, i < j → ∃ e, env (idx + i) = .thrown e ∧ isRolePropagationError e = true) →
    env (idx + j) = .ok (some a) →
    (retryWorkspaceCreationAux env n idx).1 = .ok a := by
  intro j
  induction j with
  | zero =>
    intro n idx hn hpre henv
    obtain ⟨m, rfl⟩ : ∃ m, n = m + 1 := ⟨n - 1, by omega⟩
    rw [Nat.add_zero] at henv
    unfold retryWorkspaceCreationAux
    rw [henv]
    have hfalsy : strOptFalsy (some a) = false := by
      simp [strOptFalsy, ha]
    simp [hfalsy]
  | succ j ih =>
    intro n idx hn hpre henv
    obtain ⟨m, rfl⟩ : ∃ m, n = m + 1 := ⟨n - 1, by omega⟩
    obtain ⟨e, he, hre⟩ := hpre 0 (Nat.succ_pos j)
    rw [Nat.add_zero] at he
    unfold retryWorkspaceCreationAux
    rw [he]
    simp only [hre, if_true]
    apply ih m (idx + 1) (by omega)
    · intro i hi
      obtain ⟨e2, he2, hre2⟩ := hpre (i + 1) (by omega)
      exact ⟨e2, by rw [← he2]; congr 1; omega, hre2⟩
    · rw [← henv]
      congr 1
      omega

/-- If all `n` available calls fail retry-eligibly, the loop throws
`Retry exhausted` after exactly `n` calls. -/
theorem retryAux_exhausted (env : Nat → CreateWsResult) :
    ∀ n idx,
    (∀ i, i < n → ∃ e, env (idx + i) = .thrown e ∧ isRolePropagationError e = true) →
    (retryWorkspaceCreationAux env n idx).1 = .error (.jsError "Retry exhausted") ∧
    countCreateCalls (retryWorkspaceCreationAux env n idx).2 = n := by
  intro n
  induction n with
  | zero =>
    intro idx _
    exact ⟨rfl, rfl⟩
  | succ n ih =>
    intro idx hpre
    obtain ⟨e, he, hre⟩ := hpre 0 (Nat.succ_pos n)
    rw [Nat.add_zero] at he
    have hrest := ih (idx + 1) (fun i hi => by
      obtain ⟨e2, he2, hre2⟩ := hpre (i + 1) (by omega)
      exact ⟨e2, by rw [← he2]; congr 1; omega, hre2⟩)
    constructor
    · unfold retryWorkspaceCreationAux
      rw [he]
      simp only [hre, if_true]
      exact hrest.1
    · unfold retryWorkspaceCreationAux
      rw [he]
      simp only [hre, if_true]
      rw [countCreateCalls_call_cons, countCreateCalls_sleep_cons, hrest.2]

/-- C1: with an attempt budget of 10, `retryWorkspaceCreation` issues at most 10
`createWorkspace` calls; if the k-th call (k ≤ 10) succeeds with a non-empty
arn (after k-1 retry-eligible failures), that arn is returned; if all 10 calls
fail retry-eligibly, it throws the distinct `Retry exhausted` error after
exactly 10 calls, never issuing an 11th. -/
theorem retryWorkspaceCreation_retry_bound (env : Nat → CreateWsResult) (k : Nat) (a : String) :
    countCreateCalls (retryWorkspaceCreation env 10).2 ≤ 10 ∧
    (1 ≤ k → k ≤ 10 →
      (∀ i, i < k - 1 → ∃ e, env i = .thrown e ∧ isRolePropagationError e = true) →
      env (k - 1) = .ok (some a) → ¬ a = "" →
      (retryWorkspaceCreation env 10).1 = .ok a) ∧
    ((∀ i, i < 10 → ∃ e, env i = .thrown e ∧ isRolePropagationError e = true) →
      (retryWorkspaceCreation env 10).1 = .error (.jsError "Retry exhausted") ∧
      countCreateCalls (retryWorkspaceCreation env 10).2 = 10) := by
  refine ⟨retryAux_calls_le env 10 0, ?_, ?_⟩
  · intro hk1 hk10 hpre henv ha
    exact retryAux_success env a ha (k - 1) 10 0 (by omega)
      (fun i hi => by simpa using hpre i hi) (by simpa using henv)
  · intro hall
    exact retryAux_exhausted env 10 0 (fun i hi => by simpa using hall i hi)

/-- Environment for the witness: 9 propagation failures, then success. -/
def envNineThenOk : Nat → CreateWsResult := fun i =>
  if i < 9 then .thrown (.validationException "Could not assume the role provided")
  else .ok (some "arn:ws:demo")

/-- Environment for the witnesses: every call fails with the propagation signature. -/
def envAllPropagation : Nat → CreateWsResult :=
  fun _ => .thrown (.validationException "Could not assume the role provided")

theorem retryWorkspaceCreation_retry_bound_witness :
    (retryWorkspaceCreation envNineThenOk 10).1 = .ok "arn:ws:demo" ∧
    (retryWorkspaceCreation envAllPropagation 10).1 = .error (.jsError "Retry exhausted") := by
  constructor
  · exact (retryWorkspaceCreation_retry_bound envNineThenOk 10 "arn:ws:demo").2.1
      (by omega) (by omega)
      (fun i hi => ⟨.validationException "Could not assume the role provided",
        by simp only [envNineThenOk, if_pos (show i < 9 by omega)], rfl⟩)
      (by simp [envNineThenOk]) (by simp)
  · exact ((retryWorkspaceCreation_retry_bound envAllPropagation 0 "").2.2
      (fun i _ => ⟨.validationException "Could not assume the role provided", rfl, rfl⟩)).1

/-- C2: after a failed `createWorkspace` call, the loop sleeps 2000 ms and
retries (with one fewer attempt) exactly when the error is a
`ValidationException` carrying one of the two role-propagation message
signatures; every other error is re-thrown at once, with no sleep and no
further calls. -/
theorem retryWorkspaceCreation_retry_iff_propagation (env : Nat → CreateWsResult)
    (attempts : Nat) (e : WsError) (h : env 0 = .thrown e) :
    (isRolePropagationError e = true →
      retryWorkspaceCreation env (attempts + 1) =
        ((retryWorkspaceCreationAux env attempts 1).1,
         .createWorkspaceCall :: .sleepMs 2000 :: (retryWorkspaceCreationAux env attempts 1).2)) ∧
    (isRolePropagationError e = false →
      retryWorkspaceCreation env (attempts + 1) = (.error e, [.createWorkspaceCall])) := by
  have hstep : retryWorkspaceCreation env (attempts + 1) =
      (if isRolePropagationError e then
        ((retryWorkspaceCreationAux env attempts 1).1,
         .createWorkspaceCall :: .sleepMs 2000 :: (retryWorkspaceCreationAux env attempts 1).2)
      else (.error e, [.createWorkspaceCall])) := by
    conv_lhs => unfold retryWorkspaceCreation retryWorkspaceCreationAux
    rw [h]
  constructor
  · intro hr
    rw [hstep, if_pos hr]
  · intro hr
    rw [hstep, if_neg (by simp [hr])]

/-- Environment for the witness: a validation failure with an unrelated message. -/
def envUnrelatedValidation : Nat → CreateWsResult :=
  fun _ => .thrown (.validationException "Invalid workspace id")

theorem retryWorkspaceCreation_retry_iff_propagation_witness :
    retryWorkspaceCreation envAllPropagation 1 =
      (.error (.jsError "Retry exhausted"), [.createWorkspaceCall, .sleepMs 2000]) ∧
    retryWorkspaceCreation envUnrelatedValidation 1 =
      (.error (.validationException "Invalid workspace id"), [.createWorkspaceCall]) := by
  constructor
  · exact (retryWorkspaceCreation_retry_iff_propagation envAllPropagation 0
      (.validationException "Could not assume the role provided") rfl).1 rfl
  · exact (retryWorkspaceCreation_retry_iff_propagation envUnrelatedValidation 0
      (.validationException "Invalid workspace id") rfl).2 rfl

/-! ## `createWorkspaceIfNotExists` and `prepareWorkspace`
(workspace.ts lines 277-331 and 338-359)

The environment supplies the outcome of the initial `getWorkspace` fetch, of
the full provisioning run (`prepareWorkspace`), and of the re-fetch after
provisioning. -/

/-- The fields of a `GetWorkspaceCommandOutput` the function reads. -/
structure WorkspaceRecord where
  workspaceId : Option String
  arn : Option String
deriving Repr, DecidableEq

/-- The four ARNs returned by `prepareWorkspace` (lines 325-330). -/
structure PrepareArns where
  workspaceArn : String
  workspaceS3BucketArn : String
  workspaceRoleArn : String
  workspaceDashboardRoleArn : String
deriving Repr, DecidableEq

/-- Environment of one `createWorkspaceIfNotExists` run. -/
structure CreateWsEnv where
  /-- outcome of the first `aws().tm.getWorkspace` call -/
  firstGet : Except WsError WorkspaceRecord
  /-- outcome of `prepareWorkspace` (only consulted on the not-found path) -/
  prepare : Except WsError PrepareArns
  /-- outcome of the re-fetch after provisioning -/
  secondGet : Except WsError WorkspaceRecord
deriving Repr

/-- Calls `createWorkspaceIfNotExists` can issue. -/
inductive CreateEvent where
  | getWorkspaceCall
  | prepareWorkspaceCall
deriving Repr, DecidableEq

/-- JS truthiness of the optional `workspaceId` string (`!workspace.workspaceId`
is the negation of this). -/
def strOptTruthy : Option String → Bool
  | none => false
  | some s => !(s == "")

/-- Lines 352-358: validate `workspace.workspaceId` and build the return value
(the fetched `arn` is passed through unvalidated). -/
def returnFetchedWorkspace (workspaceId : String) (w : WorkspaceRecord) :
    Except WsError (String × Option String) :=
  if strOptTruthy w.workspaceId then .ok (workspaceId, w.arn)
  else .error (.jsError "Unable to get a valid workspace")

/-- `createWorkspaceIfNotExists(workspaceId)` (lines 338-359). -/
def createWorkspaceIfNotExists (env : CreateWsEnv) (workspaceId : String) :
    Except WsError (String × Option String) × List CreateEvent :=
  match env.firstGet with
  | .ok w => (returnFetchedWorkspace workspaceId w, [.getWorkspaceCall])
  | .error e =>
    match e with
    | .resourceNotFoundException _ =>
      match env.prepare with
      | .error pe => (.error pe, [.getWorkspaceCall, .prepareWorkspaceCall])
      | .ok _ =>
        match env.secondGet with
        | .error ge =>
          (.error ge, [.getWorkspaceCall, .prepareWorkspaceCall, .getWorkspaceCall])
        | .ok w =>
          (returnFetchedWorkspace workspaceId w,
           [.getWorkspaceCall, .prepareWorkspaceCall, .getWorkspaceCall])
    | _ =>
      (.error (.jsError ("Failed to get workspace. " ++ e.render)), [.getWorkspaceCall])

/-- Is the error a `ResourceNotFoundException` (`e instanceof
ResourceNotFoundException`)? -/
def isResourceNotFound : WsError → Bool
  | .resourceNotFoundException _ => true
  | _ => false

/-- C3: `createWorkspaceIfNotExists` first fetches the workspace; a successful
fetch (of a record with a workspace id) short-circuits with that record's id
and arn, issuing no provisioning call; a `ResourceNotFoundException` triggers
full provisioning followed by a re-fetch; any other fetch failure is fatal and
propagated without provisioning. -/
theorem createWorkspaceIfNotExists_idempotent_fetch (env : CreateWsEnv) (wsId : String) :
    (∀ w, env.firstGet = .ok w → strOptTruthy w.workspaceId = true →
      createWorkspaceIfNotExists env wsId = (.ok (wsId, w.arn), [.getWorkspaceCall])) ∧
    (∀ m, env.firstGet = .error (.resourceNotFoundException m) →
      (createWorkspaceIfNotExists env wsId).2.contains .prepareWorkspaceCall = true ∧
      (∀ r, env.prepare = .ok r →
        (createWorkspaceIfNotExists env wsId).2 =
          [.getWorkspaceCall, .prepareWorkspaceCall, .getWorkspaceCall])) ∧
    (∀ e, env.firstGet = .error e → isResourceNotFound e = false →
      createWorkspaceIfNotExists env wsId =
        (.error (.jsError ("Failed to get workspace. " ++ e.render)), [.getWorkspaceCall])) := by
  refine ⟨?_, ?_, ?_⟩
  · intro w hw htruthy
    simp [createWorkspaceIfNotExists, hw, returnFetchedWorkspace, htruthy]
  · intro m hm
    constructor
    · rw [show createWorkspaceIfNotExists env wsId =
        (match env.prepare with
         | .error pe => (.error pe, [.getWorkspaceCall, .prepareWorkspaceCall])
         | .ok _ =>
           match env.secondGet with
           | .error ge =>
             (.error ge, [.getWorkspaceCall, .prepareWorkspaceCall, .getWorkspaceCall])
           | .ok w =>
             (returnFetchedWorkspace wsId w,
              [.getWorkspaceCall, .prepareWorkspaceCall, .getWorkspaceCall])) from by
          simp [createWorkspaceIfNotExists, hm]]
      cases env.prepare with
      | error pe => rfl
      | ok r =>
        cases env.secondGet with
        | error ge => rfl
        | ok w => rfl
    · intro r hr
      cases hsnd : env.secondGet with
      | error ge => simp [createWorkspaceIfNotExists, hm, hr, hsnd]
      | ok w => simp [createWorkspaceIfNotExists, hm, hr, hsnd]
  · intro e he hnotfound
    cases e with
    | resourceNotFoundException m => simp [isResourceNotFound] at hnotfound
    | validationException m => simp [createWorkspaceIfNotExists, he]
    | noSuchBucket m => simp [createWorkspaceIfNotExists, he]
    | jsError m => simp [createWorkspaceIfNotExists, he]

/-- Environment for the witness: the workspace already exists. -/
def envExisting : CreateWsEnv :=
  { firstGet := .ok { workspaceId := some "demo", arn := some "arn:ws:demo" }
    prepare := .ok { workspaceArn := "unused", workspaceS3BucketArn := "unused"
                     workspaceRoleArn := "unused", workspaceDashboardRoleArn := "unused" }
    secondGet := .ok { workspaceId := some "demo", arn := some "arn:ws:demo" } }

/-- Environment for the witness: the workspace is missing, provisioning succeeds. -/
def envNotFound : CreateWsEnv :=
  { firstGet := .error (.resourceNotFoundException "Workspace demo not found")
    prepare := .ok { workspaceArn := "arn:ws:demo", workspaceS3BucketArn := "arn:s3:demo"
                     workspaceRoleArn := "arn:role:demo", workspaceDashboardRoleArn := "arn:dash:demo" }
    secondGet := .ok { workspaceId := some "demo", arn := some "arn:ws:demo" } }

/-- Environment for the witness: the fetch fails with a non-not-found error. -/
def envFetchBroken : CreateWsEnv :=
  { envNotFound with firstGet := .error (.jsError "connection reset") }

theorem createWorkspaceIfNotExists_idempotent_fetch_witness :
    createWorkspaceIfNotExists envExisting "demo" =
      (.ok ("demo", some "arn:ws:demo"), [.getWorkspaceCall]) ∧
    (createWorkspaceIfNotExists envNotFound "demo").2 =
      [.getWorkspaceCall, .prepareWorkspaceCall, .getWorkspaceCall] ∧
    createWorkspaceIfNotExists envFetchBroken "demo" =
      (.error (.jsError "Failed to get workspace. Error: connection reset"), [.getWorkspaceCall]) := by
  refine ⟨?_, ?_, ?_⟩
  · exact (createWorkspaceIfNotExists_idempotent_fetch envExisting "demo").1
      { workspaceId := some "demo", arn := some "arn:ws:demo" } rfl rfl
  · exact ((createWorkspaceIfNotExists_idempotent_fetch envNotFound "demo").2.1
      "Workspace demo not found" rfl).2
      { workspaceArn := "arn:ws:demo", workspaceS3BucketArn := "arn:s3:demo"
        workspaceRoleArn := "arn:role:demo", workspaceDashboardRoleArn := "arn:dash:demo" } rfl
  · exact (createWorkspaceIfNotExists_idempotent_fetch envFetchBroken "demo").2.2
      (.jsError "connection reset") rfl rfl

/-- C10: `createWorkspaceIfNotExists` validates only the presence of
`workspaceId` in the fetched record; the returned `workspaceArn` is read from
the `getWorkspace` response without validation and may be absent on success;
the ARNs returned by `prepareWorkspace` are discarded, so the returned arn
always comes from a `getWorkspace` call. -/
theorem createWorkspaceIfNotExists_arn_unvalidated (env : CreateWsEnv) (wsId : String) :
    (∀ id, env.firstGet = .ok { workspaceId := some id, arn := none } → ¬ id = "" →
      (createWorkspaceIfNotExists env wsId).1 = .ok (wsId, none)) ∧
    (∀ a, env.firstGet = .ok { workspaceId := none, arn := some a } →
      (createWorkspaceIfNotExists env wsId).1 =
        .error (.jsError "Unable to get a valid workspace")) ∧
    (∀ m r r', env.firstGet = .error (.resourceNotFoundException m) →
      createWorkspaceIfNotExists { env with prepare := .ok r } wsId =
        createWorkspaceIfNotExists { env with prepare := .ok r' } wsId) ∧
    (∀ m r w, env.firstGet = .error (.resourceNotFoundException m) →
      env.prepare = .ok r → env.secondGet = .ok w → strOptTruthy w.workspaceId = true →
      (createWorkspaceIfNotExists env wsId).1 = .ok (wsId, w.arn)) := by
  refine ⟨?_, ?_, ?_, ?_⟩
  · intro id hfirst hid
    simp [createWorkspaceIfNotExists, hfirst, returnFetchedWorkspace, strOptTruthy, hid]
  · intro a hfirst
    simp [createWorkspaceIfNotExists, hfirst, returnFetchedWorkspace, strOptTruthy]
  · intro m r r' hfirst
    simp [createWorkspaceIfNotExists, hfirst]
  · intro m r w hfirst hprep hsnd htruthy
    simp [createWorkspaceIfNotExists, hfirst, hprep, hsnd, returnFetchedWorkspace, htruthy]

/-- Environment for the witness: existing workspace whose record has no arn. -/
def envExistingNoArn : CreateWsEnv :=
  { firstGet := .ok { workspaceId := some "demo", arn := none }
    prepare := .ok { workspaceArn := "p1", workspaceS3BucketArn := "p2"
                     workspaceRoleArn := "p3", workspaceDashboardRoleArn := "p4" }
    secondGet := .ok { workspaceId := some "demo", arn := none } }

/-- Environment for the witness: record with an arn but no workspace id. -/
def envNoId : CreateWsEnv :=
  { envExistingNoArn with firstGet := .ok { workspaceId := none, arn := some "arn:x" } }

/-- Environment for the witness: not-found fetch, fresh provisioning. -/
def envFreshBase : CreateWsEnv :=
  { firstGet := .error (.resourceNotFoundException "not found")
    prepare := .ok { workspaceArn := "prepared-arn", workspaceS3BucketArn := "b"
                     workspaceRoleArn := "r", workspaceDashboardRoleArn := "d" }
    secondGet := .ok { workspaceId := some "demo", arn := some "fetched-arn" } }

/-- Alternative `prepareWorkspace` results for the discarded-ARNs conjunct. -/
def prepareArnsA : PrepareArns :=
  { workspaceArn := "prepared-arn-A", workspaceS3BucketArn := "bA"
    workspaceRoleArn := "rA", workspaceDashboardRoleArn := "dA" }

/-- A second, different `prepareWorkspace` result. -/
def prepareArnsB : PrepareArns :=
  { workspaceArn := "prepared-arn-B", workspaceS3BucketArn := "bB"
    workspaceRoleArn := "rB", workspaceDashboardRoleArn := "dB" }

theorem createWorkspaceIfNotExists_arn_unvalidated_witness :
    (createWorkspaceIfNotExists envExistingNoArn "demo").1 = .ok ("demo", none) ∧
    (createWorkspaceIfNotExists envNoId "demo").1 =
      .error (.jsError "Unable to get a valid workspace") ∧
    createWorkspaceIfNotExists { envFreshBase with prepare := .ok prepareArnsA } "demo" =
      createWorkspaceIfNotExists { envFreshBase with prepare := .ok prepareArnsB } "demo" ∧
    (createWorkspaceIfNotExists envFreshBase "demo").1 = .ok ("demo", some "fetched-arn") := by
  refine ⟨?_, ?_, ?_, ?_⟩
  · exact (createWorkspaceIfNotExists_arn_unvalidated envExistingNoArn "demo").1
      "demo" rfl (by simp)
  · exact (createWorkspaceIfNotExists_arn_unvalidated envNoId "demo").2.1 "arn:x" rfl
  · exact (createWorkspaceIfNotExists_arn_unvalidated envFreshBase "demo").2.2.1
      "not found" prepareArnsA prepareArnsB rfl
  · exact (createWorkspaceIfNotExists_arn_unvalidated envFreshBase "demo").2.2.2
      "not found" { workspaceArn := "prepared-arn", workspaceS3BucketArn := "b"
                    workspaceRoleArn := "r", workspaceDashboardRoleArn := "d" }
      { workspaceId := some "demo", arn := some "fetched-arn" } rfl rfl rfl rfl

/-! ## `deleteS3Bucket` and `deleteWorkspace`
(workspace.ts lines 435-445 and 451-506)

The environment supplies the successive pages returned by `listObjectsV2` and
`listObjectVersions`; each `while (isTruncated)` loop consumes one page per
call and continues exactly while the page's `IsTruncated` field is `true`. -/

/-- The fields of a `ListObjectsV2CommandOutput` page the loop reads: the
optional `Contents` array (each entry's optional `Key`) and `IsTruncated`. -/
structure ObjPage where
  contents : Option (List (Option String))
  isTruncated : Option Bool
deriving Repr, DecidableEq

/-- One entry of `Versions` or `DeleteMarkers`. -/
structure VerEntry where
  key : Option String
  versionId : Option String
deriving Repr, DecidableEq

/-- The fields of a `ListObjectVersionsCommandOutput` page the loop reads. -/
structure VerPage where
  versions : Option (List VerEntry)
  deleteMarkers : Option (List VerEntry)
  isTruncated : Option Bool
deriving Repr, DecidableEq

/-- Pages the bucket's listing endpoints return, in call order. -/
structure S3BucketEnv where
  objPages : List ObjPage
  verPages : List VerPage
deriving Repr, DecidableEq

/-- S3 calls `deleteS3Bucket` can issue. -/
inductive S3Event where
  | listObjectsCall
  | listVersionsCall
  | deleteObjectCall (key : Option String) (versionId : Option String)
  | deleteBucketCall
deriving Repr, DecidableEq

/-- JS truthiness of the optional `IsTruncated` boolean. -/
def optTrue : Option Bool → Bool
  | some true => true
  | _ => false

/-- First loop (lines 455-470): list objects page by page; under `nonDryRun`
delete each listed object (no version id). -/
def deleteObjectsLoop (nonDryRun : Bool) : List ObjPage → List S3Event
  | [] => []
  | p :: rest =>
    .listObjectsCall ::
      ((if nonDryRun then (p.contents.getD []).map (fun k => .deleteObjectCall k none)
        else []) ++
       (if optTrue p.isTruncated then deleteObjectsLoop nonDryRun rest else []))

/-- Second loop (lines 475-500): list versions page by page; under `nonDryRun`
delete each listed version, then each delete marker. -/
def deleteVersionsLoop (nonDryRun : Bool) : List VerPage → List S3Event
  | [] => []
  | p :: rest =>
    .listVersionsCall ::
      ((if nonDryRun then (p.versions.getD []).map
          (fun v => .deleteObjectCall v.key v.versionId) else []) ++
       (if nonDryRun then (p.deleteMarkers.getD []).map
          (fun v => .deleteObjectCall v.key v.versionId) else []) ++
       (if optTrue p.isTruncated then deleteVersionsLoop nonDryRun rest else []))

/-- `deleteS3Bucket(s3BucketName, nonDryRun)`: both pagination loops, then the
bucket deletion itself, gated by `nonDryRun` (lines 502-504). -/
def deleteS3Bucket (nonDryRun : Bool) (env : S3BucketEnv) : List S3Event :=
  deleteObjectsLoop nonDryRun env.objPages ++
  deleteVersionsLoop nonDryRun env.verPages ++
  (if nonDryRun then [.deleteBucketCall] else [])

/-- `deleteWorkspace(workspaceId, nonDryRun)` (lines 435-445): the TwinMaker
deletion call is issued only under `nonDryRun`; its failure is re-thrown. -/
def deleteWorkspace (nonDryRun : Bool) (callResult : Except WsError Unit) :
    Except WsError Unit × Bool :=
  if nonDryRun then
    match callResult with
    | .ok _ => (.ok (), true)
    | .error e => (.error e, true)
  else (.ok (), false)

/-- Is the event one of the two listing calls? -/
def isListEvent : S3Event → Bool
  | .listObjectsCall => true
  | .listVersionsCall => true
  | _ => false

/-- Is the event a deletion call (`deleteObject` or `deleteBucket`)? -/
def isDeleteEvent : S3Event → Bool
  | .deleteObjectCall _ _ => true
  | .deleteBucketCall => true
  | _ => false

/-- The object keys actually listed: contents of every page the loop consumes. -/
def listedObjectKeys : List ObjPage → List (Option String)
  | [] => []
  | p :: rest =>
    p.contents.getD [] ++ (if optTrue p.isTruncated then listedObjectKeys rest else [])

/-- The version/delete-marker entries actually listed, page by page. -/
def listedVersionEntries : List VerPage → List VerEntry
  | [] => []
  | p :: rest =>
    p.versions.getD [] ++ p.deleteMarkers.getD [] ++
      (if optTrue p.isTruncated then listedVersionEntries rest else [])

theorem filter_delete_map_objs (l : List (Option String)) :
    (l.map (fun k => S3Event.deleteObjectCall k none)).filter isDeleteEvent =
      l.map (fun k => S3Event.deleteObjectCall k none) := by
  induction l with
  | nil => rfl
  | cons a l ih => simp [List.filter, isDeleteEvent, ih]

theorem filter_delete_map_vers (l : List VerEntry) :
    (l.map (fun v => S3Event.deleteObjectCall v.key v.versionId)).filter isDeleteEvent =
      l.map (fun v => S3Event.deleteObjectCall v.key v.versionId) := by
  induction l with
  | nil => rfl
  | cons a l ih => simp [List.filter, isDeleteEvent, ih]

theorem filter_list_map_objs (l : List (Option String)) :
    (l.map (fun k => S3Event.deleteObjectCall k none)).filter isListEvent = [] := by
  induction l with
  | nil => rfl
  | cons a l ih => simp [List.filter, isListEvent, ih]

theorem filter_list_map_vers (l : List VerEntry) :
    (l.map (fun v => S3Event.deleteObjectCall v.key v.versionId)).filter isListEvent = [] := by
  induction l with
  | nil => rfl
  | cons a l ih => simp [List.filter, isListEvent, ih]

theorem filter_delete_objLoop_false (pages : List ObjPage) :
    (deleteObjectsLoop false pages).filter isDeleteEvent = [] := by
  induction pages with
  | nil => rfl
  | cons p rest ih =>
    by_cases ht : optTrue p.isTruncated = true
    · simp [deleteObjectsLoop, ht, isDeleteEvent, ih]
    · simp [deleteObjectsLoop, eq_false_of_ne_true ht, isDeleteEvent]

theorem filter_delete_verLoop_false (pages : List VerPage) :
    (deleteVersionsLoop false pages).filter isDeleteEvent = [] := by
  induction pages with
  | nil => rfl
  | cons p rest ih =>
    by_cases ht : optTrue p.isTruncated = true
    · simp [deleteVersionsLoop, ht, isDeleteEvent, ih]
    · simp [deleteVersionsLoop, eq_false_of_ne_true ht, isDeleteEvent]

theorem filter_list_objLoop (pages : List ObjPage) :
    (deleteObjectsLoop false pages).filter isListEvent =
    (deleteObjectsLoop true pages).filter isListEvent := by
  induction pages with
  | nil => rfl
  | cons p rest ih =>
    by_cases ht : optTrue p.isTruncated = true
    · simp [deleteObjectsLoop, ht, isListEvent, List.filter_append, filter_list_map_objs, filter_list_map_vers, ih]
    · simp [deleteObjectsLoop, eq_false_of_ne_true ht, isListEvent, List.filter_append, filter_list_map_objs, filter_list_map_vers]

theorem filter_list_verLoop (pages : List VerPage) :
    (deleteVersionsLoop false pages).filter isListEvent =
    (deleteVersionsLoop true pages).filter isListEvent := by
  induction pages with
  | nil => rfl
  | cons p rest ih =>
    by_cases ht : optTrue p.isTruncated = true
    · simp [deleteVersionsLoop, ht, isListEvent, List.filter_append, filter_list_map_objs, filter_list_map_vers, ih]
    · simp [deleteVersionsLoop, eq_false_of_ne_true ht, isListEvent, List.filter_append, filter_list_map_objs, filter_list_map_vers]

theorem filter_delete_objLoop_true (pages : List ObjPage) :
    (deleteObjectsLoop true pages).filter isDeleteEvent =
      (listedObjectKeys pages).map (fun k => .deleteObjectCall k none) := by
  induction pages with
  | nil => rfl
  | cons p rest ih =>
    by_cases ht : optTrue p.isTruncated = true
    · simp [deleteObjectsLoop, listedObjectKeys, ht, isDeleteEvent, List.filter_append,
        filter_delete_map_objs, List.map_append, ih]
    · simp [deleteObjectsLoop, listedObjectKeys, eq_false_of_ne_true ht, isDeleteEvent,
        List.filter_append, filter_delete_map_objs]

theorem filter_delete_verLoop_true (pages : List VerPage) :
    (deleteVersionsLoop true pages).filter isDeleteEvent =
      (listedVersionEntries pages).map (fun v => .deleteObjectCall v.key v.versionId) := by
  induction pages with
  | nil => rfl
  | cons p rest ih =>
    by_cases ht : optTrue p.isTruncated = true
    · simp [deleteVersionsLoop, listedVersionEntries, ht, isDeleteEvent, List.filter_append,
        filter_delete_map_vers, List.map_append, ih]
    · simp [deleteVersionsLoop, listedVersionEntries, eq_false_of_ne_true ht, isDeleteEvent,
        List.filter_append, filter_delete_map_vers, List.map_append]

/-- C4: with `commit=false` no `deleteObject`, `deleteBucket` or
`deleteWorkspace` call is issued while the listing/pagination calls are
exactly those of a committed run; with `commit=true` a delete call is issued
for every listed object, version and delete marker, then for the bucket, and
the workspace deletion call is issued. -/
theorem deleteS3Bucket_dry_run_contract (env : S3BucketEnv)
    (callResult : Except WsError Unit) :
    (deleteS3Bucket false env).filter isDeleteEvent = [] ∧
    (deleteS3Bucket false env).filter isListEvent =
      (deleteS3Bucket true env).filter isListEvent ∧
    (deleteS3Bucket true env).filter isDeleteEvent =
      (listedObjectKeys env.objPages).map (fun k => .deleteObjectCall k none) ++
      (listedVersionEntries env.verPages).map
        (fun v => .deleteObjectCall v.key v.versionId) ++
      [.deleteBucketCall] ∧
    (deleteWorkspace false callResult).2 = false ∧
    (deleteWorkspace true callResult).2 = true := by
  refine ⟨?_, ?_, ?_, ?_, ?_⟩
  · simp [deleteS3Bucket, List.filter_append, filter_delete_objLoop_false,
      filter_delete_verLoop_false]
  · simp [deleteS3Bucket, List.filter_append, filter_list_objLoop, filter_list_verLoop,
      isListEvent, isDeleteEvent]
  · simp [deleteS3Bucket, List.filter_append, filter_delete_objLoop_true,
      filter_delete_verLoop_true, isDeleteEvent]
  · rfl
  · cases callResult with
    | ok u => rfl
    | error e => rfl

/-! ## `deleteIAMroleAndPolicy` (workspace.ts lines 397-428)

The environment supplies the three list responses; each optional entries field
may be absent (`!= undefined` guards in the source). -/

/-- One `AttachedPolicies` entry: `PolicyArn` (used for detach and delete) and
`PolicyName` (only logged). -/
structure AttachedPolicy where
  policyArn : Option String
  policyName : Option String
deriving Repr, DecidableEq

/-- Environment of one `deleteIAMroleAndPolicy` run: the three list responses. -/
structure IamRoleEnv where
  /-- `listInstanceProfilesForRole` response: optional `InstanceProfiles`
  (each profile's optional `InstanceProfileName`) -/
  instanceProfiles : Option (List (Option String))
  /-- `listRolePolicies` response: optional `PolicyNames` -/
  policyNames : Option (List String)
  /-- `listAttachedRolePolicies` response: optional `AttachedPolicies` -/
  attachedPolicies : Option (List AttachedPolicy)
deriving Repr, DecidableEq

/-- IAM calls `deleteIAMroleAndPolicy` issues. -/
inductive IamEvent where
  | listInstanceProfilesForRoleCall
  | removeRoleFromInstanceProfileCall (instanceProfileName : Option String)
  | listRolePoliciesCall
  | deleteRolePolicyCall (policyName : String)
  | listAttachedRolePoliciesCall
  | detachRolePolicyCall (policyArn : Option String)
  | deletePolicyCall (policyArn : Option String)
  | deleteRoleCall
deriving Repr, DecidableEq

/-- Step 1 body: the `for` loop over `InstanceProfiles` (lines 401-407). -/
def removeProfilesLoop : List (Option String) → List IamEvent
  | [] => []
  | n :: rest => .removeRoleFromInstanceProfileCall n :: removeProfilesLoop rest

/-- Step 2 first body: the `for` loop over `PolicyNames` (lines 412-415). -/
def deleteInlinePoliciesLoop : List String → List IamEvent
  | [] => []
  | n :: rest => .deleteRolePolicyCall n :: deleteInlinePoliciesLoop rest

/-- Step 2 second body: the `for` loop over `AttachedPolicies` (lines 419-423):
for each entry, detach then delete. -/
def detachDeletePoliciesLoop : List AttachedPolicy → List IamEvent
  | [] => []
  | p :: rest =>
    .detachRolePolicyCall p.policyArn :: .deletePolicyCall p.policyArn ::
      detachDeletePoliciesLoop rest

/-- `deleteIAMroleAndPolicy(roleName)`: three list-and-iterate phases (the
`!= undefined` checks skip an absent entries field), then the role deletion. -/
def deleteIAMroleAndPolicy (env : IamRoleEnv) : List IamEvent :=
  .listInstanceProfilesForRoleCall ::
    ((match env.instanceProfiles with
      | none => []
      | some ps => removeProfilesLoop ps) ++
     .listRolePoliciesCall ::
       ((match env.policyNames with
         | none => []
         | some ns => deleteInlinePoliciesLoop ns) ++
        .listAttachedRolePoliciesCall ::
          ((match env.attachedPolicies with
            | none => []
            | some as2 => detachDeletePoliciesLoop as2) ++
           [.deleteRoleCall])))

theorem removeProfilesLoop_eq_map (l : List (Option String)) :
    removeProfilesLoop l = l.map IamEvent.removeRoleFromInstanceProfileCall := by
  induction l with
  | nil => rfl
  | cons a l ih => simp [removeProfilesLoop, ih]

theorem deleteInlinePoliciesLoop_eq_map (l : List String) :
    deleteInlinePoliciesLoop l = l.map IamEvent.deleteRolePolicyCall := by
  induction l with
  | nil => rfl
  | cons a l ih => simp [deleteInlinePoliciesLoop, ih]

theorem detachDeletePoliciesLoop_eq_flatMap (l : List AttachedPolicy) :
    detachDeletePoliciesLoop l =
      l.flatMap (fun p => [.detachRolePolicyCall p.policyArn, .deletePolicyCall p.policyArn]) := by
  induction l with
  | nil => rfl
  | cons a l ih => simp [detachDeletePoliciesLoop, ih, List.flatMap_cons]

/-- C5: the remote calls of `deleteIAMroleAndPolicy` occur in the strict order
profile-removals, inline-policy deletions, (detach, delete) per attached
managed policy, and finally the role deletion; an absent entries field in a
list response contributes no calls and causes no error (the run still reaches
the role deletion). -/
theorem deleteIAMroleAndPolicy_ordering (env : IamRoleEnv) :
    deleteIAMroleAndPolicy env =
      .listInstanceProfilesForRoleCall ::
        (env.instanceProfiles.getD []).map IamEvent.removeRoleFromInstanceProfileCall ++
      .listRolePoliciesCall ::
        (env.policyNames.getD []).map IamEvent.deleteRolePolicyCall ++
      .listAttachedRolePoliciesCall ::
        (env.attachedPolicies.getD []).flatMap
          (fun p => [.detachRolePolicyCall p.policyArn, .deletePolicyCall p.policyArn]) ++
      [.deleteRoleCall] ∧
    (env.instanceProfiles = none → env.policyNames = none → env.attachedPolicies = none →
      deleteIAMroleAndPolicy env =
        [.listInstanceProfilesForRoleCall, .listRolePoliciesCall,
         .listAttachedRolePoliciesCall, .deleteRoleCall]) := by
  constructor
  · cases hp : env.instanceProfiles with
    | none =>
      cases hn : env.policyNames with
      | none =>
        cases ha : env.attachedPolicies with
        | none => simp [deleteIAMroleAndPolicy, hp, hn, ha]
        | some as2 => simp [deleteIAMroleAndPolicy, hp, hn, ha, detachDeletePoliciesLoop_eq_flatMap]
      | some ns =>
        cases ha : env.attachedPolicies with
        | none => simp [deleteIAMroleAndPolicy, hp, hn, ha, deleteInlinePoliciesLoop_eq_map]
        | some as2 => simp [deleteIAMroleAndPolicy, hp, hn, ha, deleteInlinePoliciesLoop_eq_map,
            detachDeletePoliciesLoop_eq_flatMap]
    | some ps =>
      cases hn : env.policyNames with
      | none =>
        cases ha : env.attachedPolicies with
        | none => simp [deleteIAMroleAndPolicy, hp, hn, ha, removeProfilesLoop_eq_map]
        | some as2 => simp [deleteIAMroleAndPolicy, hp, hn, ha, removeProfilesLoop_eq_map,
            detachDeletePoliciesLoop_eq_flatMap]
      | some ns =>
        cases ha : env.attachedPolicies with
        | none => simp [deleteIAMroleAndPolicy, hp, hn, ha, removeProfilesLoop_eq_map,
            deleteInlinePoliciesLoop_eq_map]
        | some as2 => simp [deleteIAMroleAndPolicy, hp, hn, ha, removeProfilesLoop_eq_map,
            deleteInlinePoliciesLoop_eq_map, detachDeletePoliciesLoop_eq_flatMap]
  · intro hp hn ha
    simp [deleteIAMroleAndPolicy, hp, hn, ha]

/-- Environment for the witness: every list response has no entries field. -/
def envIamEmpty : IamRoleEnv :=
  { instanceProfiles := none, policyNames := none, attachedPolicies := none }

theorem deleteIAMroleAndPolicy_ordering_witness :
    deleteIAMroleAndPolicy envIamEmpty =
      [.listInstanceProfilesForRoleCall, .listRolePoliciesCall,
       .listAttachedRolePoliciesCall, .deleteRoleCall] :=
  (deleteIAMroleAndPolicy_ordering envIamEmpty).2 rfl rfl rfl

/-! ## Derived resource naming
(`createRoleAndPolicy` lines 41-49, `createWorkspaceS3Bucket` lines 201-202,
`prepareWorkspace` lines 292-299 and 316-323) -/

/-- Modelled from the spec: `regionToAirportCode` is imported from `./utils`,
which is not under `src/`; the spec (§3) only states that derived names embed a
deterministic region code derived from the region.  We model it as a fixed
lookup on the region string with the region itself as fallback. -/
def regionToAirportCode (region : String) : String :=
  if region == "us-east-1" then "IAD"
  else if region == "us-west-2" then "PDX"
  else if region == "eu-west-1" then "DUB"
  else if region == "eu-central-1" then "FRA"
  else if region == "ap-southeast-1" then "SIN"
  else if region == "ap-southeast-2" then "SYD"
  else if region == "ap-northeast-1" then "NRT"
  else region

/-- Role name per `createRoleAndPolicy` (lines 43-49); the `region` argument is
the value the caller passes (in `prepareWorkspace`, the airport code). -/
def roleNameOf (workspaceId accountId region : String) :
    (roleType : String) → String
  | "WorkspaceRole" =>
      strToLower ("twinmaker-workspace-" ++ workspaceId ++ "-" ++ accountId ++ "-" ++ region)
  | roleType =>
      strToLower ("twinmaker-" ++ roleType ++ "-" ++ workspaceId ++ "-" ++ accountId ++
        "-" ++ region)

/-- Policy name per `createRoleAndPolicy`: the role name template with the
`-AutoPolicy` suffix inside the lowering. -/
def policyNameOf (workspaceId accountId region : String) :
    (roleType : String) → String
  | "WorkspaceRole" =>
      strToLower ("twinmaker-workspace-" ++ workspaceId ++ "-" ++ accountId ++ "-" ++ region
        ++ "-AutoPolicy")
  | roleType =>
      strToLower ("twinmaker-" ++ roleType ++ "-" ++ workspaceId ++ "-" ++ accountId ++
        "-" ++ region ++ "-AutoPolicy")

/-- Workspace bucket name (line 202). -/
def workspaceBucketName (workspaceId accountId region : String) : String :=
  strToLower ("twinmaker-workspace-" ++ workspaceId ++ "-" ++ accountId ++ "-" ++
    regionToAirportCode region)

/-- Primary workspace role name as `prepareWorkspace` derives it (lines
292-299 pass the airport code as the region argument). -/
def workspaceRoleName (workspaceId accountId region : String) : String :=
  roleNameOf workspaceId accountId (regionToAirportCode region) "WorkspaceRole"

/-- Primary workspace role's policy name. -/
def workspaceRolePolicyName (workspaceId accountId region : String) : String :=
  policyNameOf workspaceId accountId (regionToAirportCode region) "WorkspaceRole"

/-- Dashboard role name as `prepareWorkspace` derives it (lines 316-323). -/
def dashboardRoleName (workspaceId accountId region : String) : String :=
  roleNameOf workspaceId accountId (regionToAirportCode region) "WorkspaceDashboardRole"

/-- Dashboard role's policy name. -/
def dashboardRolePolicyName (workspaceId accountId region : String) : String :=
  policyNameOf workspaceId accountId (regionToAirportCode region) "WorkspaceDashboardRole"

/-- Does the string contain no upper-case (latin) character? -/
def noUpperChar (s : String) : Bool :=
  s.data.all (fun c => !c.isUpper)

theorem char_toNat_ofNat_valid {m : Nat} (h : m < 55296) : (Char.ofNat m).toNat = m := by
  have hv : m.isValidChar := Or.inl h
  simp [Char.ofNat, hv, Char.ofNatAux, Char.toNat, UInt32.toNat, BitVec.toNat_ofNatLt]

theorem char_toLower_not_upper (c : Char) : (Char.toLower c).isUpper = false := by
  by_cases h : c.toNat ≥ 65 ∧ c.toNat ≤ 90
  · obtain ⟨h1, h2⟩ := h
    have hlower : Char.toLower c = Char.ofNat (c.toNat + 32) := by
      simp [Char.toLower, h1, h2]
    rw [hlower]
    unfold Char.isUpper
    have hval : (Char.ofNat (c.toNat + 32)).toNat = c.toNat + 32 :=
      char_toNat_ofNat_valid (by omega)
    have h90 : ¬ ((Char.ofNat (c.toNat + 32)).val ≤ 90) := by
      intro hle
      have hle2 : (Char.ofNat (c.toNat + 32)).val.toNat ≤ (90 : UInt32).toNat := hle
      have h90n : (90 : UInt32).toNat = 90 := by decide
      rw [h90n] at hle2
      have hle3 : (Char.ofNat (c.toNat + 32)).toNat ≤ 90 := hle2
      omega
    simp [h90]
  · have hlower : Char.toLower c = c := by
      simp [Char.toLower]
      intro h1 h2
      exact absurd ⟨h1, h2⟩ h
    rw [hlower]
    unfold Char.isUpper
    simp [Char.toNat] at h
    by_cases h65 : (65 : UInt32) ≤ c.val
    · have hn : (65 : UInt32).toNat ≤ c.val.toNat := h65
      have h64 : (65 : UInt32).toNat = 65 := by decide
      have h90 : ¬ ((c.val : UInt32) ≤ 90) := by
        intro hle
        have hle2 : c.val.toNat ≤ (90 : UInt32).toNat := hle
        have h90n : (90 : UInt32).toNat = 90 := by decide
        rw [h64] at hn
        rw [h90n] at hle2
        have := h hn
        omega
      simp [h90]
    · simp [ge_iff_le, h65]

/-- Everything `strToLower` produces is free of upper-case characters. -/
theorem noUpperChar_strToLower (s : String) : noUpperChar (strToLower s) = true := by
  simp only [noUpperChar, strToLower, List.all_map, List.all_eq_true]
  intro c _
  simp [char_toLower_not_upper]

/-- C6: every derived resource name (bucket, primary role and policy, dashboard
role and policy) is a pure function of `(workspaceId, accountId, region)` —
byte-identical across repeated calls on the same inputs — and contains no
upper-case character; on the spec's concrete inputs the names are the expected
lowercase strings. -/
theorem derivedNames_deterministic_lowercase (w a r : String) :
    (workspaceBucketName w a r = workspaceBucketName w a r ∧
     workspaceRoleName w a r = workspaceRoleName w a r ∧
     workspaceRolePolicyName w a r = workspaceRolePolicyName w a r ∧
     dashboardRoleName w a r = dashboardRoleName w a r ∧
     dashboardRolePolicyName w a r = dashboardRolePolicyName w a r) ∧
    (noUpperChar (workspaceBucketName w a r) = true ∧
     noUpperChar (workspaceRoleName w a r) = true ∧
     noUpperChar (workspaceRolePolicyName w a r) = true ∧
     noUpperChar (dashboardRoleName w a r) = true ∧
     noUpperChar (dashboardRolePolicyName w a r) = true) ∧
    workspaceBucketName "demo" "123456789012" "us-west-2" =
      "twinmaker-workspace-demo-123456789012-pdx" ∧
    workspaceRoleName "demo" "123456789012" "us-west-2" =
      "twinmaker-workspace-demo-123456789012-pdx" ∧
    workspaceRolePolicyName "demo" "123456789012" "us-west-2" =
      "twinmaker-workspace-demo-123456789012-pdx-autopolicy" ∧
    dashboardRoleName "demo" "123456789012" "us-west-2" =
      "twinmaker-workspacedashboardrole-demo-123456789012-pdx" ∧
    dashboardRolePolicyName "demo" "123456789012" "us-west-2" =
      "twinmaker-workspacedashboardrole-demo-123456789012-pdx-autopolicy" := by
  refine ⟨⟨rfl, rfl, rfl, rfl, rfl⟩, ⟨?_, ?_, ?_, ?_, ?_⟩, ?_, ?_, ?_, ?_, ?_⟩
  · exact noUpperChar_strToLower _
  · exact noUpperChar_strToLower _
  · exact noUpperChar_strToLower _
  · exact noUpperChar_strToLower _
  · exact noUpperChar_strToLower _
  · rfl
  · rfl
  · rfl
  · rfl
  · rfl

/-! ## `deleteWorkspaceBucketAndLogs` (workspace.ts lines 364-390)

The two inner `deleteS3Bucket` invocations are abstracted by their outcomes:
for these claims only the error-handling around them matters.  The first
`try/catch` wraps both the `getBucketLogging` query and the logging-target
deletion and catches any `Error` whose message includes the
bucket-does-not-exist text; the second catches `NoSuchBucket` by class. -/

/-- The `LoggingEnabled` field of a `GetBucketLoggingCommandOutput`. -/
structure LoggingEnabledCfg where
  targetBucket : Option String
deriving Repr, DecidableEq

/-- Environment of one `deleteWorkspaceBucketAndLogs` run. -/
structure BucketTeardownEnv where
  /-- outcome of `aws().s3.getBucketLogging` (its optional `LoggingEnabled`) -/
  getBucketLogging : Except WsError (Option LoggingEnabledCfg)
  /-- outcome of `deleteS3Bucket` on the logging-target bucket -/
  deleteLoggingBucketResult : Except WsError Unit
  /-- outcome of `deleteS3Bucket` on the primary bucket -/
  deletePrimaryBucketResult : Except WsError Unit
deriving Repr

/-- Steps of `deleteWorkspaceBucketAndLogs` visible in its trace. -/
inductive TeardownEvent where
  | getBucketLoggingCall
  | deleteLoggingBucketAttempt (targetBucket : String)
  | deletePrimaryBucketAttempt
deriving Repr, DecidableEq

/-- The message text tested at line 374. -/
def bucketNotExistText : String := "The specified bucket does not exist"

/-- JS template interpolation of an optional string (`${x}` renders `undefined`
when the value is absent). -/
def jsTemplateOptStr : Option String → String
  | some s => s
  | none => "undefined"

/-- The first `try/catch` (lines 366-379): query the logging configuration and,
if logging is enabled, delete the target bucket; any `Error` from either step
whose message includes the bucket-does-not-exist text is a non-fatal skip. -/
def teardownLoggingPhase (env : BucketTeardownEnv) :
    Except WsError Unit × List TeardownEvent :=
  match env.getBucketLogging with
  | .ok none => (.ok (), [.getBucketLoggingCall])
  | .ok (some cfg) =>
    match env.deleteLoggingBucketResult with
    | .ok _ =>
      (.ok (), [.getBucketLoggingCall,
        .deleteLoggingBucketAttempt (jsTemplateOptStr cfg.targetBucket)])
    | .error e =>
      if strIncludes e.message bucketNotExistText then
        (.ok (), [.getBucketLoggingCall,
          .deleteLoggingBucketAttempt (jsTemplateOptStr cfg.targetBucket)])
      else
        (.error e, [.getBucketLoggingCall,
          .deleteLoggingBucketAttempt (jsTemplateOptStr cfg.targetBucket)])
  | .error e =>
    if strIncludes e.message bucketNotExistText then (.ok (), [.getBucketLoggingCall])
    else (.error e, [.getBucketLoggingCall])

/-- `deleteWorkspaceBucketAndLogs(s3BucketName, nonDryRun)`: the logging phase,
then the primary-bucket deletion whose `NoSuchBucket` failure is caught by
class (lines 380-389). -/
def deleteWorkspaceBucketAndLogs (env : BucketTeardownEnv) :
    Except WsError Unit × List TeardownEvent :=
  match teardownLoggingPhase env with
  | (.error e, tr) => (.error e, tr)
  | (.ok _, tr) =>
    match env.deletePrimaryBucketResult with
    | .ok _ => (.ok (), tr ++ [.deletePrimaryBucketAttempt])
    | .error e =>
      match e with
      | .noSuchBucket _ => (.ok (), tr ++ [.deletePrimaryBucketAttempt])
      | _ => (.error e, tr ++ [.deletePrimaryBucketAttempt])

/-- C7: a `getBucketLogging` failure whose message includes the
bucket-does-not-exist text is a non-fatal skip (the primary-bucket deletion is
still attempted, and succeeds when it succeeds); any other failure of that
query is fatal and issues no further call; a `NoSuchBucket` error from
deleting the primary bucket is caught, so deleting an already-absent bucket
completes successfully. -/
theorem deleteWorkspaceBucketAndLogs_absent_tolerance (env : BucketTeardownEnv) :
    (∀ e, env.getBucketLogging = .error e →
      strIncludes e.message bucketNotExistText = true →
      (deleteWorkspaceBucketAndLogs env).2.contains .deletePrimaryBucketAttempt = true ∧
      (env.deletePrimaryBucketResult = .ok () →
        deleteWorkspaceBucketAndLogs env =
          (.ok (), [.getBucketLoggingCall, .deletePrimaryBucketAttempt]))) ∧
    (∀ e, env.getBucketLogging = .error e →
      strIncludes e.message bucketNotExistText = false →
      deleteWorkspaceBucketAndLogs env = (.error e, [.getBucketLoggingCall])) ∧
    (∀ m, env.getBucketLogging = .ok none →
      env.deletePrimaryBucketResult = .error (.noSuchBucket m) →
      deleteWorkspaceBucketAndLogs env =
        (.ok (), [.getBucketLoggingCall, .deletePrimaryBucketAttempt])) := by
  refine ⟨?_, ?_, ?_⟩
  · intro e hq hmsg
    have hphase : teardownLoggingPhase env = (.ok (), [.getBucketLoggingCall]) := by
      simp [teardownLoggingPhase, hq, hmsg]
    constructor
    · cases hres : env.deletePrimaryBucketResult with
      | ok u => simp [deleteWorkspaceBucketAndLogs, hphase, hres, List.contains]
      | error e2 =>
        cases e2 with
        | noSuchBucket m => simp [deleteWorkspaceBucketAndLogs, hphase, hres, List.contains]
        | validationException m => simp [deleteWorkspaceBucketAndLogs, hphase, hres, List.contains]
        | resourceNotFoundException m =>
          simp [deleteWorkspaceBucketAndLogs, hphase, hres, List.contains]
        | jsError m => simp [deleteWorkspaceBucketAndLogs, hphase, hres, List.contains]
    · intro hres
      simp [deleteWorkspaceBucketAndLogs, hphase, hres]
  · intro e hq hmsg
    simp [deleteWorkspaceBucketAndLogs, teardownLoggingPhase, hq, hmsg]
  · intro m hq hres
    simp [deleteWorkspaceBucketAndLogs, teardownLoggingPhase, hq, hres]

/-- Environment for the witness: the logging query reports a missing bucket,
the primary deletion succeeds. -/
def envLoggingQueryMissing : BucketTeardownEnv :=
  { getBucketLogging := .error (.jsError "The specified bucket does not exist")
    deleteLoggingBucketResult := .ok ()
    deletePrimaryBucketResult := .ok () }

/-- Environment for the witness: the logging query fails with an unrelated error. -/
def envLoggingQueryBroken : BucketTeardownEnv :=
  { envLoggingQueryMissing with getBucketLogging := .error (.jsError "Access Denied") }

/-- Environment for the witness: no logging configured, primary bucket absent. -/
def envPrimaryAbsent : BucketTeardownEnv :=
  { getBucketLogging := .ok none
    deleteLoggingBucketResult := .ok ()
    deletePrimaryBucketResult := .error (.noSuchBucket "The specified bucket does not exist") }

theorem deleteWorkspaceBucketAndLogs_absent_tolerance_witness :
    deleteWorkspaceBucketAndLogs envLoggingQueryMissing =
      (.ok (), [.getBucketLoggingCall, .deletePrimaryBucketAttempt]) ∧
    deleteWorkspaceBucketAndLogs envLoggingQueryBroken =
      (.error (.jsError "Access Denied"), [.getBucketLoggingCall]) ∧
    deleteWorkspaceBucketAndLogs envPrimaryAbsent =
      (.ok (), [.getBucketLoggingCall, .deletePrimaryBucketAttempt]) := by
  refine ⟨?_, ?_, ?_⟩
  · exact ((deleteWorkspaceBucketAndLogs_absent_tolerance envLoggingQueryMissing).1
      (.jsError "The specified bucket does not exist") rfl rfl).2 rfl
  · exact (deleteWorkspaceBucketAndLogs_absent_tolerance envLoggingQueryBroken).2.1
      (.jsError "Access Denied") rfl rfl
  · exact (deleteWorkspaceBucketAndLogs_absent_tolerance envPrimaryAbsent).2.2
      "The specified bucket does not exist" rfl rfl

/-- Environment refuting C9 as stated: logging is enabled, and deleting the
logging-target bucket throws `NoSuchBucket` with the standard S3 message. -/
def envLoggingTargetAbsent : BucketTeardownEnv :=
  { getBucketLogging := .ok (some { targetBucket := some "demo-bucket-logs" })
    deleteLoggingBucketResult :=
      .error (.noSuchBucket "The specified bucket does not exist")
    deletePrimaryBucketResult := .ok () }

/-- C9 counterexample: with the logging-target bucket absent (its deletion
throwing `NoSuchBucket` with the standard message), the error does NOT
propagate out of `deleteWorkspaceBucketAndLogs` — the first catch matches on
the message text, treats it as a non-fatal skip, and the run completes
successfully. -/
theorem deleteWorkspaceBucketAndLogs_logging_target_caught :
    (deleteWorkspaceBucketAndLogs envLoggingTargetAbsent).1 = .ok () ∧
    ¬ (deleteWorkspaceBucketAndLogs envLoggingTargetAbsent).1 =
        .error (.noSuchBucket "The specified bucket does not exist") := by
  constructor
  · rfl
  · intro h
    have h2 : (Except.ok () : Except WsError Unit) =
        .error (.noSuchBucket "The specified bucket does not exist") :=
      Eq.trans rfl h
    exact Except.noConfusion h2

/-- C9 (amended): the first catch is message-based, not class-based.  An error
raised while deleting the logging-target bucket is a non-fatal skip exactly
when its message includes the bucket-does-not-exist text — whatever its class
— and propagates otherwise; so a `NoSuchBucket` from the logging-target
deletion propagates iff its message lacks that text, while the primary
bucket's deletion catches `NoSuchBucket` by class regardless of message. -/
theorem deleteWorkspaceBucketAndLogs_logging_target_message_gate
    (env : BucketTeardownEnv) (cfg : LoggingEnabledCfg) (m : String)
    (hq : env.getBucketLogging = .ok (some cfg))
    (hd : env.deleteLoggingBucketResult = .error (.noSuchBucket m)) :
    (strIncludes m bucketNotExistText = false →
      deleteWorkspaceBucketAndLogs env =
        (.error (.noSuchBucket m),
         [.getBucketLoggingCall,
          .deleteLoggingBucketAttempt (jsTemplateOptStr cfg.targetBucket)])) ∧
    (strIncludes m bucketNotExistText = true →
      (deleteWorkspaceBucketAndLogs env).1 =
        (match env.deletePrimaryBucketResult with
         | .ok _ => .ok ()
         | .error (.noSuchBucket _) => .ok ()
         | .error e => .error e) ∧
      (deleteWorkspaceBucketAndLogs env).2.contains .deletePrimaryBucketAttempt = true) := by
  constructor
  · intro hmsg
    simp [deleteWorkspaceBucketAndLogs, teardownLoggingPhase, hq, hd,
      WsError.message, hmsg]
  · intro hmsg
    have hphase : teardownLoggingPhase env =
        (.ok (), [.getBucketLoggingCall,
          .deleteLoggingBucketAttempt (jsTemplateOptStr cfg.targetBucket)]) := by
      simp [teardownLoggingPhase, hq, hd, WsError.message, hmsg]
    cases hres : env.deletePrimaryBucketResult with
    | ok u => simp [deleteWorkspaceBucketAndLogs, hphase, hres, List.contains]
    | error e2 =>
      cases e2 with
      | noSuchBucket m2 => simp [deleteWorkspaceBucketAndLogs, hphase, hres, List.contains]
      | validationException m2 =>
        simp [deleteWorkspaceBucketAndLogs, hphase, hres, List.contains]
      | resourceNotFoundException m2 =>
        simp [deleteWorkspaceBucketAndLogs, hphase, hres, List.contains]
      | jsError m2 => simp [deleteWorkspaceBucketAndLogs, hphase, hres, List.contains]

/-- Environment for the witness: the logging-target deletion throws
`NoSuchBucket` with a nonstandard message, which does propagate. -/
def envLoggingTargetOddMessage : BucketTeardownEnv :=
  { getBucketLogging := .ok (some { targetBucket := some "demo-bucket-logs" })
    deleteLoggingBucketResult := .error (.noSuchBucket "no bucket here")
    deletePrimaryBucketResult := .ok () }

theorem deleteWorkspaceBucketAndLogs_logging_target_message_gate_witness :
    deleteWorkspaceBucketAndLogs envLoggingTargetOddMessage =
      (.error (.noSuchBucket "no bucket here"),
       [.getBucketLoggingCall, .deleteLoggingBucketAttempt "demo-bucket-logs"]) ∧
    (deleteWorkspaceBucketAndLogs envLoggingTargetAbsent).1 = .ok () := by
  constructor
  · exact (deleteWorkspaceBucketAndLogs_logging_target_message_gate
      envLoggingTargetOddMessage { targetBucket := some "demo-bucket-logs" }
      "no bucket here" rfl rfl).1 rfl
  · exact ((deleteWorkspaceBucketAndLogs_logging_target_message_gate
      envLoggingTargetAbsent { targetBucket := some "demo-bucket-logs" }
      "The specified bucket does not exist" rfl rfl).2 rfl).1

/-! ## Logging setup and `createWorkspaceS3Bucket`
(workspace.ts lines 150-192 and 201-227)

Each step function is embedded as `Except WsError Bool`, the type of a
possibly-throwing async function that resolves to a boolean; the raw SDK call
outcomes are environment values. -/

/-- `grantPermissionsToWriteLogs(bucketName)` (lines 163-174): its own
`try/catch` turns a thrown error from `putBucketAcl` into `false`. -/
def grantPermissionsToWriteLogs (putBucketAclResult : Except WsError Unit) :
    Except WsError Bool :=
  match putBucketAclResult with
  | .ok _ => .ok true
  | .error _ => .ok false

/-- `putBucketLogging(sourceBucketName, targetBucketName)` (lines 177-192):
its own `try/catch` turns a thrown error from the SDK call into `false`. -/
def putBucketLogging (putBucketLoggingResult : Except WsError Unit) :
    Except WsError Bool :=
  match putBucketLoggingResult with
  | .ok _ => .ok true
  | .error _ => .ok false

/-- `enableAccessLogging(sourceBucketName, targetBucketName)` (lines 150-160):
awaits the two steps inside a `try/catch` that returns `false` on a throw (the
steps' own boolean results are discarded). -/
def enableAccessLogging (aclResult logResult : Except WsError Unit) :
    Except WsError Bool :=
  match grantPermissionsToWriteLogs aclResult with
  | .error _ => .ok false
  | .ok _ =>
    match putBucketLogging logResult with
    | .error _ => .ok false
    | .ok _ => .ok true

/-- Environment of one `createWorkspaceS3Bucket` run: outcomes of the awaited
steps (the two `createS3Bucket` runs and `putBucketCors` aggregate the
must-succeed SDK calls; the last two feed the best-effort logging setup). -/
structure BucketPairEnv where
  createPrimaryBucket : Except WsError Unit
  putBucketCors : Except WsError Unit
  createLoggingBucket : Except WsError Unit
  putBucketAcl : Except WsError Unit
  putBucketLoggingRaw : Except WsError Unit
deriving Repr

/-- `createWorkspaceS3Bucket(workspaceId, accountId, region)` (lines 201-227):
bucket, CORS, logging bucket, then best-effort `enableAccessLogging`; returns
the bucket name and arn. -/
def createWorkspaceS3Bucket (env : BucketPairEnv) (workspaceId accountId region : String) :
    Except WsError (String × String) :=
  match env.createPrimaryBucket with
  | .error e => .error e
  | .ok _ =>
    match env.putBucketCors with
    | .error e => .error e
    | .ok _ =>
      match env.createLoggingBucket with
      | .error e => .error e
      | .ok _ =>
        match enableAccessLogging env.putBucketAcl env.putBucketLoggingRaw with
        | .error e => .error e
        | .ok _ =>
          .ok (workspaceBucketName workspaceId accountId region,
               "arn:aws:s3:::" ++ workspaceBucketName workspaceId accountId region)

/-- C8: the ACL-grant and logging-enable steps each swallow their own errors
and resolve to a boolean (they never throw), so `createWorkspaceS3Bucket`'s
outcome is independent of those two steps' raw outcomes and provisioning
succeeds whenever its must-succeed steps do. -/
theorem enableAccessLogging_never_throws (acl log : Except WsError Unit)
    (env : BucketPairEnv) (w a r : String) :
    (∃ b, grantPermissionsToWriteLogs acl = .ok b) ∧
    (∃ b, putBucketLogging log = .ok b) ∧
    (∃ b, enableAccessLogging acl log = .ok b) ∧
    (∀ acl' log',
      createWorkspaceS3Bucket { env with putBucketAcl := acl', putBucketLoggingRaw := log' }
        w a r = createWorkspaceS3Bucket env w a r) ∧
    (env.createPrimaryBucket = .ok () → env.putBucketCors = .ok () →
      env.createLoggingBucket = .ok () →
      createWorkspaceS3Bucket env w a r =
        .ok (workspaceBucketName w a r, "arn:aws:s3:::" ++ workspaceBucketName w a r)) := by
  refine ⟨?_, ?_, ?_, ?_, ?_⟩
  · cases acl with
    | ok u => exact ⟨true, rfl⟩
    | error e => exact ⟨false, rfl⟩
  · cases log with
    | ok u => exact ⟨true, rfl⟩
    | error e => exact ⟨false, rfl⟩
  · cases acl with
    | ok u =>
      cases log with
      | ok v => exact ⟨true, rfl⟩
      | error e => exact ⟨true, rfl⟩
    | error e =>
      cases log with
      | ok v => exact ⟨true, rfl⟩
      | error e2 => exact ⟨true, rfl⟩
  · intro acl' log'
    cases hc : env.createPrimaryBucket with
    | error e => simp [createWorkspaceS3Bucket, hc]
    | ok u =>
      cases hcors : env.putBucketCors with
      | error e => simp [createWorkspaceS3Bucket, hc, hcors]
      | ok v =>
        cases hl : env.createLoggingBucket with
        | error e => simp [createWorkspaceS3Bucket, hc, hcors, hl]
        | ok x =>
          have hnever : ∀ p q : Except WsError Unit,
              ∃ b, enableAccessLogging p q = .ok b := by
            intro p q
            cases p with
            | ok u2 =>
              cases q with
              | ok v2 => exact ⟨true, rfl⟩
              | error e2 => exact ⟨true, rfl⟩
            | error e2 =>
              cases q with
              | ok v2 => exact ⟨true, rfl⟩
              | error e3 => exact ⟨true, rfl⟩
          obtain ⟨b1, hb1⟩ := hnever acl' log'
          obtain ⟨b2, hb2⟩ := hnever env.putBucketAcl env.putBucketLoggingRaw
          simp [createWorkspaceS3Bucket, hc, hcors, hl, hb1, hb2]
  · intro h1 h2 h3
    cases ha : env.putBucketAcl with
    | ok u =>
      cases hlg : env.putBucketLoggingRaw with
      | ok v =>
        simp [createWorkspaceS3Bucket, h1, h2, h3, enableAccessLogging,
          grantPermissionsToWriteLogs, putBucketLogging, ha, hlg]
      | error e =>
        simp [createWorkspaceS3Bucket, h1, h2, h3, enableAccessLogging,
          grantPermissionsToWriteLogs, putBucketLogging, ha, hlg]
    | error e =>
      cases hlg : env.putBucketLoggingRaw with
      | ok v =>
        simp [createWorkspaceS3Bucket, h1, h2, h3, enableAccessLogging,
          grantPermissionsToWriteLogs, putBucketLogging, ha, hlg]
      | error e2 =>
        simp [createWorkspaceS3Bucket, h1, h2, h3, enableAccessLogging,
          grantPermissionsToWriteLogs, putBucketLogging, ha, hlg]

/-- Environment for the witness: all must-succeed steps succeed while both
logging-setup SDK calls fail. -/
def envLoggingBroken : BucketPairEnv :=
  { createPrimaryBucket := .ok (), putBucketCors := .ok (), createLoggingBucket := .ok ()
    putBucketAcl := .error (.jsError "Access Denied")
    putBucketLoggingRaw := .error (.jsError "Access Denied") }

theorem enableAccessLogging_never_throws_witness :
    createWorkspaceS3Bucket envLoggingBroken "demo" "123456789012" "us-west-2" =
      .ok ("twinmaker-workspace-demo-123456789012-pdx",
           "arn:aws:s3:::twinmaker-workspace-demo-123456789012-pdx") := by
  have h := (enableAccessLogging_never_throws (.ok ()) (.ok ()) envLoggingBroken
    "demo" "123456789012" "us-west-2").2.2.2.2 rfl rfl rfl
  rw [h]
  rfl
